import Mathlib

/-!
Verification development for the twinquest-runner recovery service.

The definitions below are a shallow embedding of the TypeScript sources:
`src/services/database.service.ts` (connection manager and retry wrapper) and
the recovery service (`RecoveryService`: checkpoint resolver, batch processor,
recovery orchestrator, queue-job reaper).  Stateful code is embedded by
explicit state passing; each `await`ed storage call whose outcome is not
determined by the modelled store is parameterised by an oracle input
(`Except JsError _`), reflecting that the call either returns a value or
throws.  All definitions are executable.
-/

namespace TwinQuest

/-- A JavaScript error value as inspected by `isConnectionError`:
`error.message`, `error.code` (defaulted to `""` when absent) and
`error.kind` (defaulted to `""` when absent). -/
structure JsError where
  message : String
  code : String
  kind : String
deriving DecidableEq, Repr

/-- ASCII lowercasing of one character, as `String.prototype.toLowerCase`
acts on the ASCII letters appearing in the classified error messages. -/
def jsLowerChar (c : Char) : Char :=
  if c == 'A' then 'a' else if c == 'B' then 'b' else if c == 'C' then 'c'
  else if c == 'D' then 'd' else if c == 'E' then 'e' else if c == 'F' then 'f'
  else if c == 'G' then 'g' else if c == 'H' then 'h' else if c == 'I' then 'i'
  else if c == 'J' then 'j' else if c == 'K' then 'k' else if c == 'L' then 'l'
  else if c == 'M' then 'm' else if c == 'N' then 'n' else if c == 'O' then 'o'
  else if c == 'P' then 'p' else if c == 'Q' then 'q' else if c == 'R' then 'r'
  else if c == 'S' then 's' else if c == 'T' then 't' else if c == 'U' then 'u'
  else if c == 'V' then 'v' else if c == 'W' then 'w' else if c == 'X' then 'x'
  else if c == 'Y' then 'y' else if c == 'Z' then 'z' else c

/-- Embedding of `message.toLowerCase()`. -/
def jsToLower (s : String) : String :=
  String.mk (s.data.map jsLowerChar)

/-- `t` occurs as a contiguous subsequence of `l`
(`String.prototype.includes` on the underlying character lists). -/
def containsChars (t : List Char) : List Char → Bool
  | [] => t.isEmpty
  | c :: rest => t.isPrefixOf (c :: rest) || containsChars t rest

/-- Substring test modelling JavaScript `s.includes(t)`. -/
def strContains (s t : String) : Bool :=
  containsChars t.data s.data

/-- Embedding of `DatabaseService.isConnectionError`
(database.service.ts lines 149-170): classifies an error as a connection
failure by substring tests on the lowercased message, the `kind` field and
the Prisma error codes. -/
def isConnectionError (e : JsError) : Bool :=
  let errorMessage := jsToLower e.message
  let errorCode := e.code
  let errorKind := e.kind
  strContains errorMessage "connection" ||
  strContains errorMessage "timeout" ||
  strContains errorMessage "network" ||
  strContains errorMessage "econnreset" ||
  strContains errorMessage "enotfound" ||
  strContains errorMessage "closed" ||
  errorKind == "Closed" ||
  errorCode == "P1001" ||
  errorCode == "P1002" ||
  errorCode == "P1008" ||
  errorCode == "P1017" ||
  errorCode == "P2024"

/-- The error thrown at database.service.ts line 130 when reconnection after a
connection failure fails. -/
def connectionLostError : JsError :=
  ⟨"Database connection lost and reconnection failed", "", ""⟩

/-- The error thrown at database.service.ts line 115 when the pre-attempt
reconnect of a disconnected session fails. -/
def reconnectFailedError : JsError :=
  ⟨"Failed to reconnect to database", "", ""⟩

/-- Stand-in for the JavaScript `undefined` read out of `lastError!` in the
(unreachable for `maxRetries ≥ 1`) fall-through throw at line 146. -/
def undefinedError : JsError :=
  ⟨"", "", ""⟩

/-- Outcome of one invocation of the wrapped `operation()`: it either
resolves with a value or rejects with an error. -/
inductive OpResult (α : Type) where
  | ok (v : α)
  | err (e : JsError)
deriving DecidableEq, Repr

/-- Net outcome of `executeWithRetry`: the returned value or the thrown
error. -/
inductive RetryOutcome (α : Type) where
  | success (v : α)
  | failure (e : JsError)
deriving DecidableEq, Repr

/-- Observable result of a run of `executeWithRetry`: the outcome, the list
of backoff waits performed (in milliseconds, in order), how many times
`operation()` was invoked, how many times `reconnect()` was invoked, and the
final state of the store threaded through the operation. -/
structure RunResult (α σ : Type) where
  outcome : RetryOutcome α
  waits : List Nat
  opCalls : Nat
  recCalls : Nat
  state : σ
deriving DecidableEq, Repr

/-- Embedding of the retry loop of `DatabaseService.executeWithRetry`
(database.service.ts lines 101-147).

Parameters: `delayMs` is the base backoff delay; `op i s` is the result of
the `i`-th invocation (0-based) of `operation()` on store state `s`;
`recs i` is the result of the `i`-th invocation (0-based) of `reconnect()`.
The loop state is: `fuel` = number of attempts still allowed including the
current one (the loop guard `attempt <= maxRetries` holds iff `fuel > 0`,
and `attempt == maxRetries` iff `fuel = 1`); `attempt` = the 1-based
attempt counter; `conn` = `this.isConnected`; `opIdx`/`recIdx` = invocation
counters; `waits` = backoff waits performed so far; `lastErr` = `lastError`.

Control flow mirrors the source: when disconnected, a reconnect is tried
first and its failure raises `reconnectFailedError` inside the `try`, which
the `catch` then classifies (it is not a connection error, so it takes the
transient path).  A caught connection error marks the session unhealthy and
reconnects: on reconnect failure the loop throws `connectionLostError`; on
success it `continue`s, which in the source runs the `for` update `attempt++`.
A caught transient error on the last attempt is re-thrown; otherwise a wait
of `delayMs * attempt` is recorded and the next attempt begins. -/
def execGo {α σ : Type} (delayMs : Nat) (op : Nat → σ → OpResult α × σ)
    (recs : Nat → Bool) :
    Nat → Nat → Bool → Nat → Nat → List Nat → Option JsError → σ →
    RunResult α σ
  | 0, _, _, opIdx, recIdx, waits, lastErr, s =>
    ⟨RetryOutcome.failure (lastErr.getD undefinedError), waits, opIdx, recIdx, s⟩
  | fuel + 1, attempt, conn, opIdx, recIdx, waits, _lastErr, s =>
    if conn || recs recIdx then
      -- connected (or the pre-attempt reconnect succeeded): run the operation
      let recIdx' := if conn then recIdx else recIdx + 1
      match op opIdx s with
      | (OpResult.ok v, s') =>
        ⟨RetryOutcome.success v, waits, opIdx + 1, recIdx', s'⟩
      | (OpResult.err e, s') =>
        if isConnectionError e then
          if recs recIdx' then
            execGo delayMs op recs fuel (attempt + 1) true (opIdx + 1)
              (recIdx' + 1) waits (some e) s'
          else
            ⟨RetryOutcome.failure connectionLostError, waits, opIdx + 1,
              recIdx' + 1, s'⟩
        else
          if fuel == 0 then
            ⟨RetryOutcome.failure e, waits, opIdx + 1, recIdx', s'⟩
          else
            execGo delayMs op recs fuel (attempt + 1) true (opIdx + 1) recIdx'
              (waits ++ [delayMs * attempt]) (some e) s'
    else
      -- not connected and the pre-attempt reconnect failed:
      -- `throw new Error('Failed to reconnect to database')` is caught by the
      -- same catch block and is not classified as a connection error
      if fuel == 0 then
        ⟨RetryOutcome.failure reconnectFailedError, waits, opIdx, recIdx + 1, s⟩
      else
        execGo delayMs op recs fuel (attempt + 1) false opIdx (recIdx + 1)
          (waits ++ [delayMs * attempt]) (some reconnectFailedError) s

/-- Embedding of `DatabaseService.executeWithRetry(operation, maxRetries,
delayMs)` started on connection flag `isConnected` and store state `s`. -/
def executeWithRetry {α σ : Type} (op : Nat → σ → OpResult α × σ)
    (recs : Nat → Bool) (maxRetries delayMs : Nat) (isConnected : Bool)
    (s : σ) : RunResult α σ :=
  execGo delayMs op recs maxRetries 1 isConnected 0 0 [] none s

/-- A pure (store-less) operation whose successive invocations return the
entries of `l` in order (out-of-range invocations reject with
`undefinedError`). -/
def opsFromList {α : Type} (l : List (OpResult α)) :
    Nat → Unit → OpResult α × Unit :=
  fun i _ => (l.getD i (OpResult.err undefinedError), ())

/-! ## Data model (recovery.service.ts) -/

/-- One `survey_responses` row as inserted by `savePersonaResponses`
(recovery.service.ts lines 610-638). -/
structure SurveyResponse where
  surveyId : Nat
  questionId : Nat
  optionId : Option Nat
  personaId : Nat
  simulationId : String
  answer : String
deriving DecidableEq, Repr

/-- One row of the `Option` relation included with a question. -/
structure OptionRec where
  id : Nat
deriving DecidableEq, Repr

/-- A `Question` row with its included `Option` rows (the `Option` relation
is renamed `options` to avoid clashing with Lean's `Option`). -/
structure Question where
  id : Nat
  options : List OptionRec
deriving DecidableEq, Repr

/-- A `personas` row (the fields `generatePersonaResponses` reads). -/
structure Persona where
  id : Nat
  name : String
deriving DecidableEq, Repr

/-- A `simulation_queue_jobs` row (the fields the recovery paths touch). -/
structure QueueJob where
  id : Nat
  job_id : String
  status : String
  retry_count : Nat
  max_retries : Nat
  error_message : Option String
  failed_at : Option Nat
deriving DecidableEq, Repr

/-- A `simulations` row as read by `checkAndRecoverIncompleteSimulations`
(the fields `resumeIncompleteSimulation` reads). -/
structure IncompleteSim where
  simulationId : String
  surveyId : Nat
  selected_persona_ids : List Nat
deriving DecidableEq, Repr

/-- A row of the `checkAndRecoverFailedSimulations` candidate query
(simulations joined with their queue job; `queue_job_id` is `none` when the
LEFT JOIN found no job). -/
structure FailedSim where
  id : Nat
  simulationId : String
  queue_job_id : Option String
deriving DecidableEq, Repr

/-- The health status of a `RecoveryResult`. -/
inductive HealthStatus where
  | HEALTHY
  | UNHEALTHY
  | WARNING
deriving DecidableEq, Repr

/-- The aggregate returned by the top-level recovery operations
(recovery.service.ts lines 4-11). -/
structure RecoveryResult where
  recovered : Nat
  failed : Nat
  total : Nat
  status : HealthStatus
  issues : List String
  recommendations : List String
deriving DecidableEq, Repr

/-! ## Checkpoint resolver -/

/-- Embedding of `getCompletedPersonaIds` (recovery.service.ts lines
674-686): the distinct `personaId` values among the `survey_responses` rows
of `simulationId` (`findMany` with `distinct: ['personaId']`, a DISTINCT
projection).  The store is read, never written. -/
def getCompletedPersonaIds (store : List SurveyResponse)
    (simulationId : String) : List Nat :=
  ((store.filter (fun r => r.simulationId == simulationId)).map
    (fun r => r.personaId)).dedup

/-- Embedding of the remaining-set computation of
`resumeIncompleteSimulation` (recovery.service.ts lines 466-468):
`allSelectedPersonaIds.filter(id => !completedPersonaIds.includes(id))`. -/
def remainingPersonaIds (selected completed : List Nat) : List Nat :=
  selected.filter (fun id => !(completed.contains id))

/-! ## Batch processor -/

/-- Loop body of `chunkArray` (recovery.service.ts lines 769-775), with the
list length as fuel: each step takes `size` elements and recurses on the
rest.  For `size > 0` the fuel is never exhausted before the list is, so
this is exactly the source loop; the source loop does not terminate for
`size = 0` and every claim about it assumes a positive batch size. -/
def chunkGo {T : Type} (size : Nat) : Nat → List T → List (List T)
  | 0, _ => []
  | _ + 1, [] => []
  | fuel + 1, a :: as => ((a :: as).take size) :: chunkGo size fuel ((a :: as).drop size)

/-- Embedding of `chunkArray(array, size)`. -/
def chunkArray {T : Type} (array : List T) (size : Nat) : List (List T) :=
  chunkGo size array.length array

/-- The `for` loop of `processRemainingPersonas` (recovery.service.ts lines
555-582) over the already-chunked batches: batch `i` runs only after every
earlier batch's `executeWithRetry` call resolved successfully (the loop
`await`s each batch before moving on); `batchResult i` is the net outcome of
the `executeWithRetry`-wrapped processing of batch `i` (`Except.error` when
the wrapper exhausted its retries and threw).  Returns the overall outcome
and the list of batches that were dispatched, in dispatch order. -/
def runBatchesTrace {T : Type} (batchResult : Nat → Except JsError Unit) :
    List (List T) → Nat → Except JsError Unit × List (List T)
  | [], _ => (Except.ok (), [])
  | b :: bs, i =>
    match batchResult i with
    | Except.error e => (Except.error e, [b])
    | Except.ok _ =>
      let r := runBatchesTrace batchResult bs (i + 1)
      (r.1, b :: r.2)

/-- Embedding of `processRemainingPersonas` (recovery.service.ts lines
547-583): chunk the personas with `chunkArray(personas, batchSize)` and
process the batches strictly in order, halting at the first failed batch. -/
def processRemainingPersonas {T : Type} (personas : List T) (batchSize : Nat)
    (batchResult : Nat → Except JsError Unit) :
    Except JsError Unit × List (List T) :=
  runBatchesTrace batchResult (chunkArray personas batchSize) 0

/-! ## Persona work inside one batch -/

/-- One generated response before persistence. -/
structure MockResponse where
  questionId : Nat
  optionId : Option Nat
  answer : String
deriving DecidableEq, Repr

/-- Embedding of `generatePersonaResponses` (recovery.service.ts lines
585-608): one response per question, with `optionId` taken from
`question.Option?.[0]?.id || null` — note the JavaScript `||`, under which a
first option with id `0` also yields `null`. -/
def generatePersonaResponses (persona : Persona) (questions : List Question) :
    List MockResponse :=
  questions.map (fun question =>
    { questionId := question.id
      optionId :=
        match question.options.head? with
        | none => none
        | some o => if o.id == 0 then none else some o.id
      answer := "Mock response for persona " ++ persona.name })

/-- The rows `savePersonaResponses` (recovery.service.ts lines 610-638)
builds from the generated responses and inserts with
`survey_responses.createMany`. -/
def savePersonaRows (surveyId : Nat) (simulationId : String)
    (personaId : Nat) (responses : List MockResponse) : List SurveyResponse :=
  responses.map (fun response =>
    { surveyId := surveyId
      questionId := response.questionId
      optionId := response.optionId
      personaId := personaId
      simulationId := simulationId
      answer := response.answer })

/-- One attempt of the batch closure passed to `executeWithRetry` in
`processRemainingPersonas` (recovery.service.ts lines 560-578), in the
interleaving of the `Promise.all` where the personas of the batch complete
sequentially in list order and the attempt rejects at the first failing
persona.  A persona that completes runs `generatePersonaResponses` and
appends its `savePersonaResponses` rows to the store; once a persona fails,
the later personas of this interleaving do not run, but the rows of the
earlier personas remain inserted.  `failsAt attemptIdx personaId` says
whether the persona's processing throws on that (0-based) attempt. -/
def runBatchAttemptSeq (surveyId : Nat) (simulationId : String)
    (questions : List Question) (failsAt : Nat → Nat → Bool)
    (attemptIdx : Nat) :
    List Persona → List SurveyResponse → OpResult Unit × List SurveyResponse
  | [], store => (OpResult.ok (), store)
  | p :: ps, store =>
    if failsAt attemptIdx p.id then
      (OpResult.err ⟨"persona processing failed", "", ""⟩, store)
    else
      runBatchAttemptSeq surveyId simulationId questions failsAt attemptIdx ps
        (store ++ savePersonaRows surveyId simulationId p.id
          (generatePersonaResponses p questions))

/-- The number of `survey_responses` rows recorded for a given
`(simulationId, personaId)` pair. -/
def countResponsesFor (store : List SurveyResponse) (simulationId : String)
    (personaId : Nat) : Nat :=
  (store.filter (fun r =>
    r.simulationId == simulationId && r.personaId == personaId)).length

/-! ## JavaScript number model for `updateSimulationCounters` -/

/-- The fragment of JavaScript number semantics exercised by
`updateSimulationCounters`: a finite (exactly-represented) value, positive
infinity, or NaN.  The operands reaching the division are the nonnegative
integers `totalResponses` and `total_requests * selected_persona_count`. -/
inductive JsNum where
  | nan
  | inf
  | fin (q : ℚ)
deriving DecidableEq, Repr

/-- JavaScript division on the values that arise here: `0 / 0 = NaN`,
`x / 0 = Infinity` for `x > 0`, and exact rational division otherwise
(membership of the result in `[0, 100]` is insensitive to IEEE rounding,
which maps nonnegative quotients to nonnegative values). -/
def jsDiv : JsNum → JsNum → JsNum
  | JsNum.fin a, JsNum.fin b =>
    if b = 0 then (if a = 0 then JsNum.nan else JsNum.inf) else JsNum.fin (a / b)
  | _, _ => JsNum.nan

/-- JavaScript multiplication on the values that arise here
(`NaN * x = NaN`, `Infinity * c = Infinity` for `c > 0`). -/
def jsMul : JsNum → JsNum → JsNum
  | JsNum.fin a, JsNum.fin b => JsNum.fin (a * b)
  | JsNum.inf, JsNum.fin b => if b ≤ 0 then JsNum.nan else JsNum.inf
  | JsNum.fin a, JsNum.inf => if a ≤ 0 then JsNum.nan else JsNum.inf
  | _, _ => JsNum.nan

/-- `Math.min`: NaN-propagating minimum. -/
def jsMin : JsNum → JsNum → JsNum
  | JsNum.nan, _ => JsNum.nan
  | _, JsNum.nan => JsNum.nan
  | JsNum.inf, b => b
  | a, JsNum.inf => a
  | JsNum.fin a, JsNum.fin b => JsNum.fin (min a b)

/-- The `progressPercentage` computed by `updateSimulationCounters`
(recovery.service.ts lines 656-659):
`Math.min((totalResponses / (total_requests * selected_persona_count)) * 100, 100)`. -/
def computeProgress (totalResponses total_requests selected_persona_count : Nat) :
    JsNum :=
  jsMin
    (jsMul
      (jsDiv (JsNum.fin totalResponses)
        (JsNum.fin (total_requests * selected_persona_count)))
      (JsNum.fin 100))
    (JsNum.fin 100)

/-! ## Resuming one incomplete simulation -/

/-- The storage effects `resumeIncompleteSimulation` performs, in order.
`markCompleted` records the direct-completion update of lines 473-483
(`status: 'COMPLETED'`, `progress_percentage` as carried, `recovery_status:
'COMPLETED'`); `runBatchesFor` records the invocation of
`processRemainingPersonas`; `markFailed` records the catch-block update of
lines 532-541. -/
inductive DbAction where
  | fetchQuestions (surveyId : Nat)
  | fetchCompletedIds (simulationId : String)
  | markCompleted (simulationId : String) (progress_percentage : Nat)
  | fetchPersonas (personaIds : List Nat)
  | markInProgress (simulationId : String)
  | runBatchesFor (personaIds : List Nat)
  | markRecoveryCompleted (simulationId : String)
  | markFailed (simulationId : String) (error_message : String)
deriving DecidableEq, Repr

/-- The `try` block of `resumeIncompleteSimulation` (recovery.service.ts
lines 452-527).  The store determines the completed-persona checkpoint; the
oracles give the outcome of each awaited storage call in source order:
`questionsRes` (the `question.findMany`), `completedRes` (whether the
checkpoint read itself throws), `personasRes`, and the update/batch
outcomes.  The result is the net outcome of the block (`Except.error` =
throws) paired with the trace of storage effects in order. -/
def resumeTry (sim : IncompleteSim)
    (store : List SurveyResponse)
    (questionsRes : Except JsError (List Question))
    (completedRes : Except JsError Unit)
    (personasRes : Except JsError (List Persona))
    (updCompleted updInProgress batchRes updRecoveryCompleted :
      Except JsError Unit) :
    Except JsError Unit × List DbAction :=
  match questionsRes with
    | Except.error e => (Except.error e, [DbAction.fetchQuestions sim.surveyId])
    | Except.ok _qs =>
      match completedRes with
      | Except.error e =>
        (Except.error e,
          [DbAction.fetchQuestions sim.surveyId,
           DbAction.fetchCompletedIds sim.simulationId])
      | Except.ok _ =>
        let completedPersonaIds := getCompletedPersonaIds store sim.simulationId
        let remainingIds :=
          remainingPersonaIds sim.selected_persona_ids completedPersonaIds
        if remainingIds.length = 0 then
          match updCompleted with
          | Except.error e =>
            (Except.error e,
              [DbAction.fetchQuestions sim.surveyId,
               DbAction.fetchCompletedIds sim.simulationId,
               DbAction.markCompleted sim.simulationId 100])
          | Except.ok _ =>
            (Except.ok (),
              [DbAction.fetchQuestions sim.surveyId,
               DbAction.fetchCompletedIds sim.simulationId,
               DbAction.markCompleted sim.simulationId 100])
        else
          match personasRes with
          | Except.error e =>
            (Except.error e,
              [DbAction.fetchQuestions sim.surveyId,
               DbAction.fetchCompletedIds sim.simulationId,
               DbAction.fetchPersonas remainingIds])
          | Except.ok _ =>
            match updInProgress with
            | Except.error e =>
              (Except.error e,
                [DbAction.fetchQuestions sim.surveyId,
                 DbAction.fetchCompletedIds sim.simulationId,
                 DbAction.fetchPersonas remainingIds,
                 DbAction.markInProgress sim.simulationId])
            | Except.ok _ =>
              match batchRes with
              | Except.error e =>
                (Except.error e,
                  [DbAction.fetchQuestions sim.surveyId,
                   DbAction.fetchCompletedIds sim.simulationId,
                   DbAction.fetchPersonas remainingIds,
                   DbAction.markInProgress sim.simulationId,
                   DbAction.runBatchesFor remainingIds])
              | Except.ok _ =>
                match updRecoveryCompleted with
                | Except.error e =>
                  (Except.error e,
                    [DbAction.fetchQuestions sim.surveyId,
                     DbAction.fetchCompletedIds sim.simulationId,
                     DbAction.fetchPersonas remainingIds,
                     DbAction.markInProgress sim.simulationId,
                     DbAction.runBatchesFor remainingIds,
                     DbAction.markRecoveryCompleted sim.simulationId])
                | Except.ok _ =>
                  (Except.ok (),
                    [DbAction.fetchQuestions sim.surveyId,
                     DbAction.fetchCompletedIds sim.simulationId,
                     DbAction.fetchPersonas remainingIds,
                     DbAction.markInProgress sim.simulationId,
                     DbAction.runBatchesFor remainingIds,
                     DbAction.markRecoveryCompleted sim.simulationId])
/-- Embedding of `resumeIncompleteSimulation` (recovery.service.ts lines
446-545): the `try` block (`resumeTry`) wrapped in the `catch` that issues
the FAILED update and rethrows.  The catch block issues the `markFailed`
update and then rethrows the original error — unless that update itself
throws, in which case its error replaces the original. -/
def resumeIncompleteSimulation (sim : IncompleteSim)
    (store : List SurveyResponse)
    (questionsRes : Except JsError (List Question))
    (completedRes : Except JsError Unit)
    (personasRes : Except JsError (List Persona))
    (updCompleted updInProgress batchRes updRecoveryCompleted updFailed :
      Except JsError Unit) :
    Except JsError Unit × List DbAction :=
  match resumeTry sim store questionsRes completedRes personasRes updCompleted
      updInProgress batchRes updRecoveryCompleted with
  | (Except.ok u, trace) => (Except.ok u, trace)
  | (Except.error e, trace) =>
    match updFailed with
    | Except.ok _ =>
      (Except.error e, trace ++ [DbAction.markFailed sim.simulationId e.message])
    | Except.error e2 =>
      (Except.error e2, trace ++ [DbAction.markFailed sim.simulationId e.message])

/-! ## Top-level recovery operations -/

/-- The error thrown by `DatabaseService.getClient` (database.service.ts
line 84) when the connection flag is down. -/
def dbNotConnectedError : JsError :=
  ⟨"Database not connected", "", ""⟩

/-- `getClient()` either returns the client or throws
`dbNotConnectedError`. -/
def getClient (isConnected : Bool) : Except JsError Unit :=
  if isConnected then Except.ok () else Except.error dbNotConnectedError

/-- Per-candidate body of the `checkAndRecoverFailedSimulations` loop
(recovery.service.ts lines 205-234): reset the simulation to PENDING
(`updSim`), then — only if the candidate has a queue job — reset the queue
job (`updJob`); an error from either update makes the candidate count as
failed. -/
def recoverOneFailedSim (sim : FailedSim)
    (updSim updJob : Except JsError Unit) : Except JsError Unit :=
  match updSim with
  | Except.error e => Except.error e
  | Except.ok _ =>
    match sim.queue_job_id with
    | none => Except.ok ()
    | some _ =>
      match updJob with
      | Except.error e => Except.error e
      | Except.ok _ => Except.ok ()

/-- The `recovered`/`failed` tally of the `checkAndRecoverFailedSimulations`
loop; `updSim i`/`updJob i` are the update outcomes for the `i`-th
candidate. -/
def tallyFailedSims (updSim updJob : Nat → Except JsError Unit) :
    List FailedSim → Nat → Nat → Nat → Nat × Nat
  | [], _, recovered, failed => (recovered, failed)
  | sim :: rest, i, recovered, failed =>
    match recoverOneFailedSim sim (updSim i) (updJob i) with
    | Except.ok _ => tallyFailedSims updSim updJob rest (i + 1) (recovered + 1) failed
    | Except.error _ => tallyFailedSims updSim updJob rest (i + 1) recovered (failed + 1)

/-- The aggregate returned by the catch block of
`checkAndRecoverFailedSimulations` (recovery.service.ts lines 245-255). -/
def failedRecoveryCatchResult : RecoveryResult :=
  ⟨0, 1, 1, HealthStatus.UNHEALTHY, ["Recovery process failed"],
    ["Check database connection and logs"]⟩

/-- Embedding of `checkAndRecoverFailedSimulations` (recovery.service.ts
lines 150-256).  `getClient` and the candidate query sit inside the `try`,
so a disconnected session or a failed query lands in the catch result; an
empty candidate list short-circuits to the all-zero HEALTHY aggregate;
otherwise the per-candidate tally is taken and the status is
`failed > 0 ? 'WARNING' : 'HEALTHY'`. -/
def checkAndRecoverFailedSimulations (isConnected : Bool)
    (querySims : Except JsError (List FailedSim))
    (updSim updJob : Nat → Except JsError Unit) : RecoveryResult :=
  match getClient isConnected with
  | Except.error _ => failedRecoveryCatchResult
  | Except.ok _ =>
    match querySims with
    | Except.error _ => failedRecoveryCatchResult
    | Except.ok sims =>
      if sims.length = 0 then
        ⟨0, 0, 0, HealthStatus.HEALTHY, [], []⟩
      else
        let t := tallyFailedSims updSim updJob sims 0 0 0
        ⟨t.1, t.2, sims.length,
          if t.2 > 0 then HealthStatus.WARNING else HealthStatus.HEALTHY,
          if t.2 > 0 then
            ["Failed to recover " ++ toString t.2 ++ " simulations"]
          else [],
          if t.2 > 0 then ["Check logs for specific error details"] else []⟩

/-- The `recovered`/`failed`/`issues` tally of the
`checkAndRecoverIncompleteSimulations` loop (recovery.service.ts lines
387-402); `resume i` is the net outcome of `resumeIncompleteSimulation` for
the `i`-th candidate (which rethrows its internal failures). -/
def tallyIncompleteSims (resume : Nat → Except JsError Unit) :
    List IncompleteSim → Nat → Nat → Nat → List String →
    Nat × Nat × List String
  | [], _, recovered, failed, issues => (recovered, failed, issues)
  | sim :: rest, i, recovered, failed, issues =>
    match resume i with
    | Except.ok _ =>
      tallyIncompleteSims resume rest (i + 1) (recovered + 1) failed issues
    | Except.error e =>
      tallyIncompleteSims resume rest (i + 1) recovered (failed + 1)
        (issues ++
          ["Simulation " ++ sim.simulationId ++ " failed to recover: " ++
            e.message])

/-- The aggregate returned by the catch block of
`checkAndRecoverIncompleteSimulations` (recovery.service.ts lines 433-443). -/
def incompleteCatchResult (msg : String) : RecoveryResult :=
  ⟨0, 1, 1, HealthStatus.UNHEALTHY, ["Recovery process failed: " ++ msg],
    ["Check database connection and service logs"]⟩

/-- Embedding of `checkAndRecoverIncompleteSimulations`
(recovery.service.ts lines 359-444).  `getClient`, the candidate query, the
per-candidate loop and the final `recoverStuckQueueJobs` call all sit inside
the `try`; `reaper` is the outcome of that final call (it can throw, see
`recoverStuckQueueJobs`).  In the normal path the status is HEALTHY when
`failed = 0`, otherwise UNHEALTHY when `failed > recovered` and WARNING when
`failed ≤ recovered` (lines 407-413). -/
def checkAndRecoverIncompleteSimulations (isConnected : Bool)
    (querySims : Except JsError (List IncompleteSim))
    (resume : Nat → Except JsError Unit)
    (reaper : Except JsError Unit) : RecoveryResult :=
  match getClient isConnected with
  | Except.error e => incompleteCatchResult e.message
  | Except.ok _ =>
    match querySims with
    | Except.error e => incompleteCatchResult e.message
    | Except.ok sims =>
      let t := tallyIncompleteSims resume sims 0 0 0 []
      match reaper with
      | Except.error e => incompleteCatchResult e.message
      | Except.ok _ =>
        ⟨t.1, t.2.1, sims.length,
          if t.2.1 > 0 then
            (if t.2.1 > t.1 then HealthStatus.UNHEALTHY else HealthStatus.WARNING)
          else HealthStatus.HEALTHY,
          t.2.2,
          if t.2.1 > 0 then
            ["Check simulation logs and manually retry failed simulations"]
          else []⟩

/-! ## Queue job reaper -/

/-- Embedding of `recoverStuckQueueJobs` (recovery.service.ts lines
688-723).  `getClient()` is called BEFORE the `try` block, so a disconnected
session throws out of the function; everything after it is inside the
`try`/`catch` that logs and swallows.  `findRes` is the stuck-job query
outcome and `updRes` the `updateMany` outcome (only issued when stuck jobs
were found). -/
def recoverStuckQueueJobs (isConnected : Bool)
    (findRes : Except JsError (List QueueJob))
    (updRes : Except JsError Nat) : Except JsError Unit :=
  match getClient isConnected with
  | Except.error e => Except.error e
  | Except.ok _ =>
    match findRes with
    | Except.error _ => Except.ok ()
    | Except.ok stuckJobs =>
      if stuckJobs.length > 0 then
        match updRes with
        | Except.error _ => Except.ok ()
        | Except.ok _ => Except.ok ()
      else Except.ok ()

/-- Embedding of `cleanupOldJobs` (recovery.service.ts lines 725-753): the
same shape — `getClient()` before the `try`, the `deleteMany` inside it. -/
def cleanupOldJobs (isConnected : Bool)
    (deleteRes : Except JsError Nat) : Except JsError Unit :=
  match getClient isConnected with
  | Except.error e => Except.error e
  | Except.ok _ =>
    match deleteRes with
    | Except.error _ => Except.ok ()
    | Except.ok _ => Except.ok ()

/-! ## Queue job resets of the failed/stuck recovery paths -/

/-- The SQL update of `checkAndRecoverFailedSimulations` (recovery.service.ts
lines 219-224) applied to the queue-job table: rows matching `job_id` get
`status = 'PENDING'`, `retry_count = 0`, `error_message = NULL`,
`failed_at = NULL`. -/
def resetFailedSimQueueJob (jobs : List QueueJob) (jobId : String) :
    List QueueJob :=
  jobs.map (fun j =>
    if j.job_id == jobId then
      { j with
        status := "PENDING"
        retry_count := 0
        error_message := none
        failed_at := none }
    else j)

/-- The SQL update of `checkAndRecoverStuckSimulations` (recovery.service.ts
lines 320-325) applied to the queue-job table: rows matching `job_id` get
`status = 'PENDING'`, `retry_count = 0`,
`error_message = 'Recovered from stuck state'`, `failed_at = NULL`. -/
def resetStuckSimQueueJob (jobs : List QueueJob) (jobId : String) :
    List QueueJob :=
  jobs.map (fun j =>
    if j.job_id == jobId then
      { j with
        status := "PENDING"
        retry_count := 0
        error_message := some "Recovered from stuck state"
        failed_at := none }
    else j)

/-- The eligibility gate of the `checkAndRecoverFailedSimulations` candidate
query (recovery.service.ts line 186):
`qj."retry_count" < qj."max_retries" OR qj."retry_count" IS NULL` (fields
are NULL when the LEFT JOIN found no queue job; a NULL comparison does not
satisfy the predicate). -/
def failedSimEligible (retry_count max_retries : Option Nat) : Bool :=
  match retry_count, max_retries with
  | none, _ => true
  | some rc, some mr => rc < mr
  | some _, none => false

end TwinQuest

/-! # Theorems -/

namespace TwinQuest

/-- C1 counterexample.  With `maxRetries = 1`, an operation whose first
invocation rejects with a connection error (`"connection reset"`), a
`reconnect()` that succeeds, and a second invocation that would succeed with
`42`: `executeWithRetry` invokes the operation exactly once (`opCalls = 1`)
and throws the original connection error.  The `continue` after the
successful reconnect runs the `for` update `attempt++`, so the
connection-failure retry consumed the only attempt slot and the "same
attempt" was never re-run — refuting the claim that connection-failure
retries do not count against `maxRetries`. -/
theorem executeWithRetry_conn_failure_consumes_slot_cex :
    executeWithRetry
      (opsFromList [OpResult.err ⟨"connection reset", "", ""⟩,
        OpResult.ok (42 : Nat)])
      (fun _ => true) 1 1000 true () =
    ⟨RetryOutcome.failure ⟨"connection reset", "", ""⟩, [], 1, 1, ()⟩ := by
  decide

/-- C1 (amended).  When an attempt's operation rejects with an error
classified as a connection failure: if `reconnect()` fails the wrapper
throws `connectionLostError` at once (fail-fast); if `reconnect()` succeeds
the wrapper moves on to the NEXT attempt — consuming a retry slot, with no
backoff wait recorded — and if the connection failure happened on the final
attempt the original error is re-thrown without invoking the operation
again. -/
theorem executeWithRetry_connection_failure_step {α σ : Type}
    (delayMs fuel attempt opIdx recIdx : Nat)
    (op : Nat → σ → OpResult α × σ) (recs : Nat → Bool)
    (waits : List Nat) (lastErr : Option JsError) (s s' : σ) (e : JsError)
    (hop : op opIdx s = (OpResult.err e, s'))
    (hconn : isConnectionError e = true) :
    (recs recIdx = false →
      execGo delayMs op recs (fuel + 1) attempt true opIdx recIdx waits lastErr s =
        ⟨RetryOutcome.failure connectionLostError, waits, opIdx + 1, recIdx + 1, s'⟩)
    ∧ (recs recIdx = true →
      execGo delayMs op recs (fuel + 1) attempt true opIdx recIdx waits lastErr s =
        execGo delayMs op recs fuel (attempt + 1) true (opIdx + 1) (recIdx + 1)
          waits (some e) s')
    ∧ (recs recIdx = true → fuel = 0 →
      (execGo delayMs op recs (fuel + 1) attempt true opIdx recIdx waits lastErr s).outcome =
        RetryOutcome.failure e) := by
  refine ⟨?_, ?_, ?_⟩
  · intro hr
    simp [execGo, hop, hconn, hr]
  · intro hr
    simp [execGo, hop, hconn, hr]
  · intro hr hf
    subst hf
    simp [execGo, hop, hconn, hr]

/-- Witness for `executeWithRetry_connection_failure_step` at a concrete
input. -/
theorem executeWithRetry_connection_failure_step_witness :
    (((fun _ _ => ((OpResult.err ⟨"connection closed", "", ""⟩ : OpResult Nat), ())) :
        Nat → Unit → OpResult Nat × Unit) 0 () =
      ((OpResult.err ⟨"connection closed", "", ""⟩ : OpResult Nat), ()))
    ∧ isConnectionError ⟨"connection closed", "", ""⟩ = true
    ∧ (((fun _ => false) : Nat → Bool) 0 = false →
      execGo 1000
          ((fun _ _ => ((OpResult.err ⟨"connection closed", "", ""⟩ : OpResult Nat), ())) :
            Nat → Unit → OpResult Nat × Unit)
          (fun _ => false) 1 1 true 0 0 [] none () =
        ⟨RetryOutcome.failure connectionLostError, [], 1, 1, ()⟩) := by
  refine ⟨rfl, by decide, ?_⟩
  exact (executeWithRetry_connection_failure_step 1000 0 1 0 0
    ((fun _ _ => ((OpResult.err ⟨"connection closed", "", ""⟩ : OpResult Nat), ())) :
      Nat → Unit → OpResult Nat × Unit)
    (fun _ => false) [] none () () ⟨"connection closed", "", ""⟩
    rfl (by decide)).1

/-- C6.  Transient (non-connection) failures: (i) with `maxRetries = 3`, an
operation that rejects transiently on the first two attempts and resolves
with `v` on the third returns `v` after exactly the two backoff waits
`[delayMs * 1, delayMs * 2]`; (ii) if the third attempt also rejects
transiently, the error of that final attempt is re-thrown, after the same
two waits; (iii) in general, a transient failure on attempt `attempt` that
is not the last is followed by exactly one further wait of
`delayMs * attempt` before the next attempt starts. -/
theorem executeWithRetry_transient_backoff (d : Nat) (e1 e2 e3 : JsError)
    (v : Nat) (recs : Nat → Bool)
    (h1 : isConnectionError e1 = false)
    (h2 : isConnectionError e2 = false)
    (h3 : isConnectionError e3 = false) :
    executeWithRetry (opsFromList [OpResult.err e1, OpResult.err e2, OpResult.ok v])
        recs 3 d true () =
      ⟨RetryOutcome.success v, [d * 1, d * 2], 3, 0, ()⟩
    ∧ executeWithRetry
        (opsFromList [(OpResult.err e1 : OpResult Nat), OpResult.err e2, OpResult.err e3])
        recs 3 d true () =
      ⟨RetryOutcome.failure e3, [d * 1, d * 2], 3, 0, ()⟩
    ∧ (∀ {σ : Type} (f attempt opIdx recIdx : Nat) (waits : List Nat)
        (lastErr : Option JsError) (op : Nat → σ → OpResult Nat × σ) (s s' : σ),
        op opIdx s = (OpResult.err e1, s') →
        execGo d op recs (f + 2) attempt true opIdx recIdx waits lastErr s =
          execGo d op recs (f + 1) (attempt + 1) true (opIdx + 1) recIdx
            (waits ++ [d * attempt]) (some e1) s') := by
  refine ⟨?_, ?_, ?_⟩
  · simp [executeWithRetry, execGo, opsFromList, h1, h2]
  · simp [executeWithRetry, execGo, opsFromList, h1, h2, h3]
  · intro σ f attempt opIdx recIdx waits lastErr op s s' hop
    rw [execGo]
    simp [hop, h1]

/-- Witness for `executeWithRetry_transient_backoff` at a concrete input. -/
theorem executeWithRetry_transient_backoff_witness :
    executeWithRetry
        (opsFromList [OpResult.err ⟨"boom", "", ""⟩, OpResult.err ⟨"bang", "", ""⟩,
          OpResult.ok (5 : Nat)])
        (fun _ => false) 3 7 true () =
      ⟨RetryOutcome.success 5, [7 * 1, 7 * 2], 3, 0, ()⟩ :=
  (executeWithRetry_transient_backoff 7 ⟨"boom", "", ""⟩ ⟨"bang", "", ""⟩
    ⟨"crash", "", ""⟩ 5 (fun _ => false) (by decide) (by decide) (by decide)).1

/-- C5 counterexample.  When the connection flag is down, both reaper
operations throw `dbNotConnectedError` out of the function: `getClient()` is
called before their `try` blocks, so this failure is NOT swallowed —
refuting "for every state of the connection ... never propagate a
failure". -/
theorem reaper_propagates_when_disconnected_cex :
    recoverStuckQueueJobs false (Except.ok []) (Except.ok 0) =
        Except.error dbNotConnectedError
    ∧ cleanupOldJobs false (Except.ok 0) = Except.error dbNotConnectedError :=
  ⟨rfl, rfl⟩

/-- C5 (amended).  When the connection flag is up (so `getClient()` returns
the client), `recoverStuckQueueJobs` and `cleanupOldJobs` return normally
for every outcome of their storage calls: any error raised inside their
`try` blocks is logged and swallowed. -/
theorem reaper_swallows_errors_when_connected
    (findRes : Except JsError (List QueueJob)) (updRes : Except JsError Nat)
    (deleteRes : Except JsError Nat) :
    recoverStuckQueueJobs true findRes updRes = Except.ok ()
    ∧ cleanupOldJobs true deleteRes = Except.ok () := by
  constructor
  · cases findRes with
    | error e => rfl
    | ok stuckJobs =>
      cases updRes with
      | error e =>
        show (if stuckJobs.length > 0 then Except.ok () else Except.ok ()) =
          Except.ok ()
        simp
      | ok n =>
        show (if stuckJobs.length > 0 then Except.ok () else Except.ok ()) =
          Except.ok ()
        simp
  · cases deleteRes with
    | error e => rfl
    | ok n => rfl

/-- C2.  A concrete execution of `processRemainingPersonas`'s batch retry:
the batch `[persona 1, persona 2]` (one question) is wrapped in ONE
`executeWithRetry` call; on the first attempt persona 1 saves its responses
and then persona 2 rejects transiently; the retry re-runs the whole batch
closure, re-generating and re-saving persona 1's responses.  The run
succeeds, and the store ends with TWO `survey_responses` rows for
`(simulationId, personaId) = ("sim-1", 1)` — duplicate rows inserted within
one recovery pass. -/
theorem batch_retry_duplicates_rows :
    (executeWithRetry
        (fun i store =>
          runBatchAttemptSeq 3 "sim-1" [⟨10, [⟨5⟩]⟩]
            (fun attemptIdx personaId => attemptIdx == 0 && personaId == 2) i
            [⟨1, "a"⟩, ⟨2, "b"⟩] store)
        (fun _ => false) 3 2000 true ([] : List SurveyResponse)).outcome =
      RetryOutcome.success ()
    ∧ countResponsesFor
        (executeWithRetry
          (fun i store =>
            runBatchAttemptSeq 3 "sim-1" [⟨10, [⟨5⟩]⟩]
              (fun attemptIdx personaId => attemptIdx == 0 && personaId == 2) i
              [⟨1, "a"⟩, ⟨2, "b"⟩] store)
          (fun _ => false) 3 2000 true ([] : List SurveyResponse)).state
        "sim-1" 1 = 2
    ∧ countResponsesFor
        (executeWithRetry
          (fun i store =>
            runBatchAttemptSeq 3 "sim-1" [⟨10, [⟨5⟩]⟩]
              (fun attemptIdx personaId => attemptIdx == 0 && personaId == 2) i
              [⟨1, "a"⟩, ⟨2, "b"⟩] store)
          (fun _ => false) 3 2000 true ([] : List SurveyResponse)).state
        "sim-1" 2 = 1 := by
  decide

/-- C3.  The checkpoint resolver: the remaining set is exactly the set
difference `U − D` of the declared persona ids and the distinct persona ids
with recorded result rows; membership in the remaining list is equivalent to
being declared and having NO `survey_responses` row; and re-running the
computation on the same store yields the same list (the resolver is a pure
read — its embedding takes the store and returns a list without modifying
anything). -/
theorem checkpoint_resolver_remaining_set (store : List SurveyResponse)
    (simulationId : String) (selected : List Nat) :
    (remainingPersonaIds selected (getCompletedPersonaIds store simulationId)).toFinset
      = selected.toFinset \ (getCompletedPersonaIds store simulationId).toFinset
    ∧ (∀ id : Nat,
        id ∈ remainingPersonaIds selected (getCompletedPersonaIds store simulationId)
        ↔ id ∈ selected ∧
          ¬ ∃ r ∈ store, r.simulationId = simulationId ∧ r.personaId = id)
    ∧ remainingPersonaIds selected (getCompletedPersonaIds store simulationId)
      = remainingPersonaIds selected (getCompletedPersonaIds store simulationId) := by
  refine ⟨?_, ?_, rfl⟩
  · ext a
    simp [remainingPersonaIds, List.mem_filter]
  · intro id
    simp [remainingPersonaIds, getCompletedPersonaIds, List.mem_filter,
      List.mem_dedup, List.mem_map]

/-- C8.  When the computed remaining set of a candidate is empty (and the
question fetch, checkpoint read and completion update go through),
`resumeIncompleteSimulation` returns normally after issuing exactly the
direct-completion update (`status COMPLETED`, `progress_percentage 100`,
`recovery_status COMPLETED`) — and, for ANY oracle outcomes, it never
dispatches the batch processor when the remaining set is empty: no
`runBatchesFor` action appears in its trace. -/
theorem resume_empty_remaining_marks_completed (sim : IncompleteSim)
    (store : List SurveyResponse) (qs : List Question)
    (prres : Except JsError (List Persona))
    (updCompleted updInProgress batchRes updRecoveryCompleted updFailed :
      Except JsError Unit)
    (hrem : remainingPersonaIds sim.selected_persona_ids
      (getCompletedPersonaIds store sim.simulationId) = [])
    (huc : updCompleted = Except.ok ()) :
    resumeIncompleteSimulation sim store (Except.ok qs) (Except.ok ()) prres
        updCompleted updInProgress batchRes updRecoveryCompleted updFailed =
      (Except.ok (),
        [DbAction.fetchQuestions sim.surveyId,
         DbAction.fetchCompletedIds sim.simulationId,
         DbAction.markCompleted sim.simulationId 100])
    ∧ (∀ (updCompleted' : Except JsError Unit) (ids : List Nat),
        DbAction.runBatchesFor ids ∉
          (resumeIncompleteSimulation sim store (Except.ok qs) (Except.ok ())
            prres updCompleted' updInProgress batchRes updRecoveryCompleted
            updFailed).2) := by
  subst huc
  constructor
  · simp [resumeIncompleteSimulation, resumeTry, hrem]
  · intro updCompleted' ids
    cases updCompleted' with
    | ok u => simp [resumeIncompleteSimulation, resumeTry, hrem]
    | error e =>
      cases updFailed with
      | ok u2 => simp [resumeIncompleteSimulation, resumeTry, hrem]
      | error e2 => simp [resumeIncompleteSimulation, resumeTry, hrem]

/-- Witness for `resume_empty_remaining_marks_completed`: with declared
personas `[7]` and a recorded response row for persona `7`, the remaining
set is empty and the simulation is marked COMPLETED directly. -/
theorem resume_empty_remaining_marks_completed_witness :
    resumeIncompleteSimulation ⟨"s", 1, [7]⟩ [⟨1, 10, none, 7, "s", "x"⟩]
        (Except.ok []) (Except.ok ()) (Except.ok []) (Except.ok ())
        (Except.ok ()) (Except.ok ()) (Except.ok ()) (Except.ok ()) =
      (Except.ok (),
        [DbAction.fetchQuestions 1, DbAction.fetchCompletedIds "s",
         DbAction.markCompleted "s" 100]) :=
  (resume_empty_remaining_marks_completed ⟨"s", 1, [7]⟩
    [⟨1, 10, none, 7, "s", "x"⟩] [] (Except.ok []) (Except.ok ())
    (Except.ok ()) (Except.ok ()) (Except.ok ()) (Except.ok ())
    (by decide) rfl).1

/-- C9 counterexample.  For a simulation row with `total_requests = 0` (so
the expected-response product is `0`) and zero recorded responses,
`updateSimulationCounters` computes `Math.min((0 / 0) * 100, 100)`, which is
`NaN` — not a number in `[0, 100]` — refuting "every value ... lies between
0 and 100 inclusive ... including rows where total_requests ×
selected_persona_count is zero". -/
theorem computeProgress_nan_cex :
    computeProgress 0 0 1 = JsNum.nan
    ∧ ¬ ∃ q : ℚ, computeProgress 0 0 1 = JsNum.fin q ∧ 0 ≤ q ∧ q ≤ 100 := by
  have h : computeProgress 0 0 1 = JsNum.nan := by
    norm_num [computeProgress, jsDiv, jsMul, jsMin]
  refine ⟨h, ?_⟩
  rintro ⟨q, hq, -, -⟩
  rw [h] at hq
  exact absurd hq (by simp)

/-- Every `markCompleted` action emitted by the `try` block of
`resumeIncompleteSimulation` carries `progress_percentage = 100` (helper for
the progress-range theorem). -/
theorem resumeTry_markCompleted_progress (sim : IncompleteSim)
    (store : List SurveyResponse) (qres : Except JsError (List Question))
    (cres : Except JsError Unit) (prres : Except JsError (List Persona))
    (uc uip br urc : Except JsError Unit) (s : String) (p : Nat) :
    DbAction.markCompleted s p ∈
      (resumeTry sim store qres cres prres uc uip br urc).2 → p = 100 := by
  intro hmem
  by_cases hif : remainingPersonaIds sim.selected_persona_ids
    (getCompletedPersonaIds store sim.simulationId) = []
  · rcases qres with e | qs <;> rcases cres with e2 | u2 <;>
      rcases uc with e4 | u4 <;>
      simp [resumeTry, hif] at hmem <;> exact hmem.2
  · rcases qres with e | qs <;> rcases cres with e2 | u2 <;>
      rcases prres with e3 | ps <;> rcases uip with e5 | u5 <;>
      rcases br with e6 | u6 <;> rcases urc with e7 | u7 <;>
      simp [resumeTry, hif, List.length_eq_zero] at hmem

/-- C9 (amended).  Except in the corner where both the recorded-response
count and the expected product `total_requests * selected_persona_count`
are zero (where the computed value is NaN, see `computeProgress_nan_cex`),
the value `updateSimulationCounters` writes lies in `[0, 100]`; and the
direct-completion path of `resumeIncompleteSimulation` only ever writes
`progress_percentage = 100` (every `markCompleted` action it emits carries
exactly 100). -/
theorem progress_writes_in_range :
    (∀ t a b : Nat, 0 < t ∨ 0 < a * b →
      ∃ q : ℚ, computeProgress t a b = JsNum.fin q ∧ 0 ≤ q ∧ q ≤ 100)
    ∧ (∀ (sim : IncompleteSim) (store : List SurveyResponse)
        (qres : Except JsError (List Question)) (cres : Except JsError Unit)
        (prres : Except JsError (List Persona))
        (uc uip br urc uf : Except JsError Unit) (s : String) (p : Nat),
        DbAction.markCompleted s p ∈
          (resumeIncompleteSimulation sim store qres cres prres uc uip br urc
            uf).2 →
        p = 100) := by
  constructor
  · intro t a b h
    by_cases hd : a * b = 0
    · have ht : 0 < t := by
        rcases h with ht | hab
        · exact ht
        · omega
      refine ⟨100, ?_, by norm_num, le_refl _⟩
      norm_num [computeProgress, jsDiv, jsMul, jsMin, Nat.mul_eq_zero.mp hd,
        Nat.pos_iff_ne_zero.mp ht]
    · have hor : ¬(a = 0 ∨ b = 0) := by simpa [Nat.mul_eq_zero] using hd
      refine ⟨min ((t : ℚ) / ((a * b : Nat) : ℚ) * 100) 100, ?_, ?_,
        min_le_right _ _⟩
      · simp [computeProgress, jsDiv, jsMul, jsMin, hor]
      · refine le_min ?_ (by norm_num)
        positivity
  · intro sim store qres cres prres uc uip br urc uf s p hmem
    have key := resumeTry_markCompleted_progress sim store qres cres prres uc
      uip br urc s p
    unfold resumeIncompleteSimulation at hmem
    rcases htr : resumeTry sim store qres cres prres uc uip br urc with
      ⟨res, trace⟩
    rw [htr] at hmem key
    rcases res with e | u
    · rcases uf with e2 | u2 <;> simp [List.mem_append] at hmem <;>
        exact key hmem
    · exact key hmem

/-- Witness for `progress_writes_in_range` at a concrete input. -/
theorem progress_writes_in_range_witness :
    ∃ q : ℚ, computeProgress 5 2 3 = JsNum.fin q ∧ 0 ≤ q ∧ q ≤ 100 :=
  progress_writes_in_range.1 5 2 3 (Or.inl (by norm_num))

/-- C7 counterexample.  A `checkAndRecoverFailedSimulations` pass in which 1
candidate recovers and 2 fail returns status WARNING, although
`failed > recovered` — the per-item path of this operation computes
`failed > 0 ? WARNING : HEALTHY` and never returns UNHEALTHY, refuting the
claim that EVERY top-level recovery operation derives UNHEALTHY when
`failed > recovered`. -/
theorem failed_recovery_status_cex :
    checkAndRecoverFailedSimulations true
        (Except.ok [⟨1, "s1", none⟩, ⟨2, "s2", none⟩, ⟨3, "s3", none⟩])
        (fun i => if i == 0 then Except.ok () else Except.error ⟨"boom", "", ""⟩)
        (fun _ => Except.ok ()) =
      ⟨1, 2, 3, HealthStatus.WARNING, ["Failed to recover 2 simulations"],
        ["Check logs for specific error details"]⟩
    ∧ HealthStatus.WARNING ≠ HealthStatus.UNHEALTHY := by
  refine ⟨rfl, by decide⟩

/-- C7 (amended).  `checkAndRecoverIncompleteSimulations` derives its status
exactly as the claim states (HEALTHY iff `failed = 0`, WARNING iff
`0 < failed ≤ recovered`, UNHEALTHY iff `failed > recovered`) on every path,
the catch path included; `checkAndRecoverFailedSimulations`, by contrast,
derives `failed > 0 ? WARNING : HEALTHY` on its per-item path (its UNHEALTHY
aggregate arises only from its catch path). -/
theorem recovery_status_derivation :
    (∀ (isConnected : Bool) (querySims : Except JsError (List IncompleteSim))
        (resume : Nat → Except JsError Unit) (reaper : Except JsError Unit),
        (checkAndRecoverIncompleteSimulations isConnected querySims resume
            reaper).status =
          (if (checkAndRecoverIncompleteSimulations isConnected querySims
              resume reaper).failed = 0 then HealthStatus.HEALTHY
            else if (checkAndRecoverIncompleteSimulations isConnected querySims
                resume reaper).failed ≤
                (checkAndRecoverIncompleteSimulations isConnected querySims
                  resume reaper).recovered then HealthStatus.WARNING
            else HealthStatus.UNHEALTHY))
    ∧ (∀ (updSim updJob : Nat → Except JsError Unit) (sims : List FailedSim),
        (checkAndRecoverFailedSimulations true (Except.ok sims) updSim
            updJob).status =
          (if (checkAndRecoverFailedSimulations true (Except.ok sims) updSim
              updJob).failed = 0 then HealthStatus.HEALTHY
            else HealthStatus.WARNING)) := by
  constructor
  · intro isConnected querySims resume reaper
    cases isConnected with
    | false => rfl
    | true =>
      cases querySims with
      | error e => rfl
      | ok sims =>
        cases reaper with
        | error e => rfl
        | ok u =>
          rcases ht : tallyIncompleteSims resume sims 0 0 0 [] with
            ⟨rec, fail, issues⟩
          simp [checkAndRecoverIncompleteSimulations, getClient, ht]
          split_ifs <;> first | rfl | (exfalso; omega)
  · intro updSim updJob sims
    rcases ht : tallyFailedSims updSim updJob sims 0 0 0 with ⟨rec, fail⟩
    by_cases hlen : sims.length = 0
    · simp [checkAndRecoverFailedSimulations, getClient, hlen]
    · simp [checkAndRecoverFailedSimulations, getClient, hlen, ht]
      split_ifs <;> first | rfl | (exfalso; omega)

/-- C10.  Both reset paths write `retry_count = 0` on the matched queue job
(rather than preserving or incrementing it), so immediately afterwards the
job passes the `retry_count < max_retries` recovery-eligibility gate
whenever `max_retries > 0`. -/
theorem queue_job_reset_rearms (jobs : List QueueJob) (jobId : String)
    (j j2 : QueueJob)
    (h1 : j ∈ resetFailedSimQueueJob jobs jobId) (h1' : j.job_id = jobId)
    (h2 : j2 ∈ resetStuckSimQueueJob jobs jobId) (h2' : j2.job_id = jobId) :
    (j.retry_count = 0 ∧
      (0 < j.max_retries →
        failedSimEligible (some j.retry_count) (some j.max_retries) = true))
    ∧ (j2.retry_count = 0 ∧
      (0 < j2.max_retries →
        failedSimEligible (some j2.retry_count) (some j2.max_retries) = true)) := by
  have key : ∀ (upd : QueueJob → QueueJob) (k : QueueJob),
      k ∈ jobs.map (fun x => if x.job_id == jobId then upd x else x) →
      k.job_id = jobId →
      (∀ x : QueueJob, (upd x).retry_count = 0) →
      k.retry_count = 0 := by
    intro upd k hk hkid hupd
    rcases List.mem_map.mp hk with ⟨x, -, hx⟩
    by_cases hid : x.job_id == jobId
    · rw [if_pos hid] at hx
      rw [← hx]
      exact hupd x
    · rw [if_neg hid] at hx
      rw [← hx] at hkid
      exact absurd (beq_iff_eq.mpr hkid) hid
  have hj : j.retry_count = 0 :=
    key _ j h1 h1' (fun x => rfl)
  have hj2 : j2.retry_count = 0 :=
    key _ j2 h2 h2' (fun x => rfl)
  refine ⟨⟨hj, ?_⟩, ⟨hj2, ?_⟩⟩
  · intro hm
    simp [failedSimEligible, hj, hm]
  · intro hm
    simp [failedSimEligible, hj2, hm]

/-- Witness for `queue_job_reset_rearms` at a concrete input. -/
theorem queue_job_reset_rearms_witness :
    (⟨1, "j", "PENDING", 0, 3, none, none⟩ : QueueJob).retry_count = 0 ∧
      (0 < (⟨1, "j", "PENDING", 0, 3, none, none⟩ : QueueJob).max_retries →
        failedSimEligible (some 0) (some 3) = true) :=
  (queue_job_reset_rearms [⟨1, "j", "FAILED", 5, 3, some "boom", some 9⟩] "j"
    ⟨1, "j", "PENDING", 0, 3, none, none⟩
    ⟨1, "j", "PENDING", 0, 3, some "Recovered from stuck state", none⟩
    (by decide) rfl (by decide) rfl).1

/-- `chunkGo` does not depend on the fuel once the fuel covers the list
length (for positive chunk size). -/
theorem chunkGo_fuel_eq {T : Type} (k : Nat) (hk : 0 < k) :
    ∀ f1 f2 (l : List T), l.length ≤ f1 → l.length ≤ f2 →
      chunkGo k f1 l = chunkGo k f2 l := by
  intro f1
  induction f1 with
  | zero =>
    intro f2 l h1 h2
    have hl : l = [] := List.eq_nil_of_length_eq_zero (Nat.le_zero.mp h1)
    subst hl
    cases f2 <;> rfl
  | succ f ih =>
    intro f2 l h1 h2
    cases l with
    | nil => cases f2 <;> rfl
    | cons a as =>
      cases f2 with
      | zero => simp at h2
      | succ f2' =>
        show (a :: as).take k :: chunkGo k f ((a :: as).drop k)
          = (a :: as).take k :: chunkGo k f2' ((a :: as).drop k)
        congr 1
        apply ih
        · rw [List.length_drop]
          simp only [List.length_cons] at h1 ⊢
          omega
        · rw [List.length_drop]
          simp only [List.length_cons] at h2 ⊢
          omega

/-- Unfolding `chunkArray` on a nonempty list for positive chunk size: the
first chunk is `take size`, the rest is `chunkArray` of `drop size` — the
source loop's first iteration. -/
theorem chunkArray_cons {T : Type} (k : Nat) (hk : 0 < k) (a : T)
    (as : List T) :
    chunkArray (a :: as) k =
      (a :: as).take k :: chunkArray ((a :: as).drop k) k := by
  show (a :: as).take k :: chunkGo k as.length ((a :: as).drop k)
    = (a :: as).take k :: chunkGo k ((a :: as).drop k).length ((a :: as).drop k)
  congr 1
  apply chunkGo_fuel_eq k hk
  · rw [List.length_drop]
    simp only [List.length_cons]
    omega
  · exact le_refl _

/-- The number of chunks is `⌈n / k⌉` (written `(n + k - 1) / k` over `Nat`). -/
theorem chunkArray_length {T : Type} (k : Nat) (hk : 0 < k) :
    ∀ (n : Nat) (l : List T), l.length ≤ n →
      (chunkArray l k).length = (l.length + k - 1) / k := by
  intro n
  induction n with
  | zero =>
    intro l h
    have hl : l = [] := List.eq_nil_of_length_eq_zero (Nat.le_zero.mp h)
    subst hl
    show (0 : Nat) = (0 + k - 1) / k
    rw [Nat.zero_add, Nat.div_eq_of_lt (by omega)]
  | succ n ih =>
    intro l h
    cases l with
    | nil =>
      show (0 : Nat) = (0 + k - 1) / k
      rw [Nat.zero_add, Nat.div_eq_of_lt (by omega)]
    | cons a as =>
      rw [chunkArray_cons k hk, List.length_cons, List.length_cons]
      have hdl : ((a :: as).drop k).length ≤ n := by
        rw [List.length_drop]
        simp only [List.length_cons] at h ⊢
        omega
      rw [ih _ hdl, List.length_drop, List.length_cons]
      rcases le_or_lt k (as.length + 1) with hkm | hkm
      · have e1 : as.length + 1 - k + k - 1 = as.length := by omega
        have e2 : as.length + 1 + k - 1 = as.length + k := by omega
        rw [e1, e2, Nat.add_div_right _ hk]
      · have e1 : as.length + 1 - k + k - 1 = k - 1 := by omega
        rw [e1, Nat.div_eq_of_lt (by omega)]
        have e2 : (as.length + 1 + k - 1) / k = 1 :=
          Nat.div_eq_of_lt_le (by omega) (by omega)
        rw [e2]

/-- The chunks concatenate back to the original list, in order: the
partition is contiguous and order-preserving. -/
theorem chunkArray_flatten {T : Type} (k : Nat) (hk : 0 < k) :
    ∀ (n : Nat) (l : List T), l.length ≤ n →
      (chunkArray l k).flatten = l := by
  intro n
  induction n with
  | zero =>
    intro l h
    have hl : l = [] := List.eq_nil_of_length_eq_zero (Nat.le_zero.mp h)
    subst hl
    rfl
  | succ n ih =>
    intro l h
    cases l with
    | nil => rfl
    | cons a as =>
      rw [chunkArray_cons k hk, List.flatten_cons]
      have hdl : ((a :: as).drop k).length ≤ n := by
        rw [List.length_drop]
        simp only [List.length_cons] at h ⊢
        omega
      rw [ih _ hdl, List.take_append_drop]

/-- Every chunk is nonempty and no chunk exceeds the batch size. -/
theorem chunkArray_sizes {T : Type} (k : Nat) (hk : 0 < k) :
    ∀ (n : Nat) (l : List T), l.length ≤ n →
      ∀ b ∈ chunkArray l k, b.length ≤ k ∧ b ≠ [] := by
  intro n
  induction n with
  | zero =>
    intro l h b hb
    have hl : l = [] := List.eq_nil_of_length_eq_zero (Nat.le_zero.mp h)
    subst hl
    simp [chunkArray, chunkGo] at hb
  | succ n ih =>
    intro l h b hb
    cases l with
    | nil => simp [chunkArray, chunkGo] at hb
    | cons a as =>
      rw [chunkArray_cons k hk] at hb
      rcases List.mem_cons.mp hb with hb | hb
      · subst hb
        constructor
        · rw [List.length_take]
          omega
        · rw [← List.length_pos, List.length_take]
          simp only [List.length_cons]
          omega
      · have hdl : ((a :: as).drop k).length ≤ n := by
          rw [List.length_drop]
          simp only [List.length_cons] at h ⊢
          omega
        exact ih _ hdl b hb

/-- Every chunk except possibly the last has length exactly `k`. -/
theorem chunkArray_full {T : Type} (k : Nat) (hk : 0 < k) :
    ∀ (n : Nat) (l : List T), l.length ≤ n →
      ∀ i, i + 1 < (chunkArray l k).length →
        ((chunkArray l k).getD i []).length = k := by
  intro n
  induction n with
  | zero =>
    intro l h i hi
    have hl : l = [] := List.eq_nil_of_length_eq_zero (Nat.le_zero.mp h)
    subst hl
    simp [chunkArray, chunkGo] at hi
  | succ n ih =>
    intro l h i hi
    cases l with
    | nil => simp [chunkArray, chunkGo] at hi
    | cons a as =>
      rw [chunkArray_cons k hk] at hi ⊢
      have hdl : ((a :: as).drop k).length ≤ n := by
        rw [List.length_drop]
        simp only [List.length_cons] at h ⊢
        omega
      cases i with
      | zero =>
        rw [List.getD_cons_zero, List.length_take]
        simp only [List.length_cons] at hi ⊢
        have hrest : 0 < (chunkArray ((a :: as).drop k) k).length := by omega
        have hne : (a :: as).drop k ≠ [] := by
          intro hnil
          rw [hnil] at hrest
          simp [chunkArray, chunkGo] at hrest
        have : 0 < ((a :: as).drop k).length := List.length_pos.mpr hne
        rw [List.length_drop] at this
        simp only [List.length_cons] at this
        omega
      | succ i' =>
        rw [List.getD_cons_succ]
        apply ih _ hdl
        simp only [List.length_cons] at hi
        omega

/-- If every batch's `executeWithRetry` call resolves, the loop dispatches
all batches, in order. -/
theorem runBatchesTrace_all_ok {T : Type} (f : Nat → Except JsError Unit) :
    ∀ (bs : List (List T)) (i : Nat),
      (∀ t, t < bs.length → f (i + t) = Except.ok ()) →
      runBatchesTrace f bs i = (Except.ok (), bs) := by
  intro bs
  induction bs with
  | nil => intro i h; rfl
  | cons b rest ih =>
    intro i h
    have h0 : f i = Except.ok () := by
      have := h 0 (by simp)
      rwa [Nat.add_zero] at this
    show (match f i with
      | Except.error e => (Except.error e, [b])
      | Except.ok _ =>
        let r := runBatchesTrace f rest (i + 1)
        (r.1, b :: r.2)) = (Except.ok (), b :: rest)
    rw [h0]
    have hrest : runBatchesTrace f rest (i + 1) = (Except.ok (), rest) := by
      apply ih
      intro t ht
      have hx := h (t + 1) (by simp only [List.length_cons]; omega)
      have ee : i + 1 + t = i + t + 1 := by omega
      rw [ee]
      exact hx
    simp [hrest]

/-- If batch `j` is the first whose `executeWithRetry` call throws, the loop
dispatches exactly the batches `0..j` (in order) and rethrows that error:
no later batch of this pass is dispatched. -/
theorem runBatchesTrace_first_err {T : Type} (f : Nat → Except JsError Unit) :
    ∀ (bs : List (List T)) (i j : Nat) (e : JsError),
      j < bs.length → f (i + j) = Except.error e →
      (∀ t, t < j → f (i + t) = Except.ok ()) →
      runBatchesTrace f bs i = (Except.error e, bs.take (j + 1)) := by
  intro bs
  induction bs with
  | nil => intro i j e hj; simp at hj
  | cons b rest ih =>
    intro i j e hj herr hok
    cases j with
    | zero =>
      rw [Nat.add_zero] at herr
      show (match f i with
        | Except.error e => (Except.error e, [b])
        | Except.ok _ =>
          let r := runBatchesTrace f rest (i + 1)
          (r.1, b :: r.2)) = (Except.error e, (b :: rest).take 1)
      rw [herr]
      rfl
    | succ j' =>
      have h0 : f i = Except.ok () := by
        have := hok 0 (by omega)
        rwa [Nat.add_zero] at this
      show (match f i with
        | Except.error e => (Except.error e, [b])
        | Except.ok _ =>
          let r := runBatchesTrace f rest (i + 1)
          (r.1, b :: r.2)) = (Except.error e, (b :: rest).take (j' + 1 + 1))
      rw [h0]
      have hrest : runBatchesTrace f rest (i + 1) =
          (Except.error e, rest.take (j' + 1)) := by
        apply ih
        · simp only [List.length_cons] at hj; omega
        · have ee : i + 1 + j' = i + j' + 1 := by omega
          rw [ee]
          exact herr
        · intro t ht
          have hx := hok (t + 1) (by omega)
          have ee : i + 1 + t = i + t + 1 := by omega
          rw [ee]
          exact hx
      simp [hrest]

/-- C4.  For `batchSize = k > 0` and `n` remaining personas:
`chunkArray` yields exactly `⌈n/k⌉` (`= (n + k - 1) / k`) contiguous batches
whose concatenation is the original sequence in order, each nonempty, of
size at most `k`, and of size exactly `k` except possibly the last; the
batch loop dispatches them strictly in order (batch `i + 1` is dispatched
only after batch `i`'s `executeWithRetry` call resolved): if every batch
call resolves, all batches run in order, and if batch `j` is the first to
fail after exhausting its retries, exactly batches `0..j` were dispatched
and no subsequent batch of this pass executes. -/
theorem batch_partition_and_sequencing {T : Type} (personas : List T)
    (k : Nat) (f : Nat → Except JsError Unit) (hk : 0 < k) :
    (chunkArray personas k).length = (personas.length + k - 1) / k
    ∧ (chunkArray personas k).flatten = personas
    ∧ (∀ b ∈ chunkArray personas k, b.length ≤ k ∧ b ≠ [])
    ∧ (∀ i, i + 1 < (chunkArray personas k).length →
        ((chunkArray personas k).getD i []).length = k)
    ∧ ((∀ t, t < (chunkArray personas k).length → f t = Except.ok ()) →
        processRemainingPersonas personas k f =
          (Except.ok (), chunkArray personas k))
    ∧ (∀ j e, j < (chunkArray personas k).length → f j = Except.error e →
        (∀ t, t < j → f t = Except.ok ()) →
        processRemainingPersonas personas k f =
          (Except.error e, (chunkArray personas k).take (j + 1))) := by
  refine ⟨chunkArray_length k hk personas.length personas (le_refl _),
    chunkArray_flatten k hk personas.length personas (le_refl _),
    chunkArray_sizes k hk personas.length personas (le_refl _),
    chunkArray_full k hk personas.length personas (le_refl _), ?_, ?_⟩
  · intro h
    apply runBatchesTrace_all_ok
    intro t ht
    rw [Nat.zero_add]
    exact h t ht
  · intro j e hj herr hok
    apply runBatchesTrace_first_err
    · exact hj
    · rwa [Nat.zero_add]
    · intro t ht
      rw [Nat.zero_add]
      exact hok t ht

/-- Witness for `batch_partition_and_sequencing` at a concrete input. -/
theorem batch_partition_and_sequencing_witness :
    (chunkArray ([1, 2, 3] : List Nat) 2).length =
      (([1, 2, 3] : List Nat).length + 2 - 1) / 2 :=
  (batch_partition_and_sequencing ([1, 2, 3] : List Nat) 2
    (fun _ => Except.ok ()) (by decide)).1

end TwinQuest
